import Mathlib

/-!
Verification of the vscode-to-unreal remote-execution core (TypeScript),
shallowly embedded in Lean 4.

The embedded code lives in the repository's remote-execution module:
protocol constants, the message codec (_RemoteExecutionMessage), the node
registry (_RemoteExecutionNode / _RemoteExecutionBroadcastNodes), the TCP
command connection (_RemoteExecutionCommandConnection), the RemoteExecution
facade, and the _time_now utility.

Modelling conventions:
- JSON values are modelled by the inductive JValue; the JSON text layer
  (JSON.stringify / JSON.parse) is modelled by carrying the parsed value:
  an Option JValue input stands for the result of JSON.parse, where none
  is a parse failure (the throwing path of JSON.parse).
- JavaScript null and undefined are both modelled as none of an Option;
  where the distinction matters for serialisation it is noted in place.
- JavaScript truthiness is made explicit via the jsTruthy* helpers.
- Wall-clock reads (new Date().getTime()) are modelled by threading an
  explicit wall parameter into every function that may consult the clock.
-/

set_option maxRecDepth 4096

/-- A JSON value as produced by JSON.parse / consumed by JSON.stringify.
Numbers are modelled as integers: every number the protocol carries
(protocol version, ports) is integral. -/
inductive JValue where
  | null : JValue
  | bool (b : Bool) : JValue
  | num (n : Int) : JValue
  | str (s : String) : JValue
  | obj (fields : List (String × JValue)) : JValue
deriving Repr

/-- First-match key lookup in an object's field list (JS property read;
object literals in the embedded code never hold duplicate keys). -/
def lookupKey {V : Type} : List (String × V) → String → Option V
  | [], _ => none
  | (k', v) :: t, k => if k' = k then some v else lookupKey t k

/-- JS property write: replace the value when the key exists, otherwise
append the new key (JS objects preserve string-key insertion order). -/
def setKey {V : Type} (o : List (String × V)) (k : String) (v : V) : List (String × V) :=
  if o.any (fun p => p.1 = k) then o.map (fun p => if p.1 = k then (k, v) else p)
  else o ++ [(k, v)]

/-- Property read on a JSON value: undefined (none) on non-objects and
absent keys. -/
def JValue.getField : JValue → String → Option JValue
  | .obj fields, k => lookupKey fields k
  | _, _ => none

/-- JS truthiness of a JSON value (any object, even empty, is truthy). -/
def JValue.truthy : JValue → Bool
  | .null => false
  | .bool b => b
  | .num n => n != 0
  | .str s => s != ""
  | .obj _ => true

/-- JS truthiness of a nullable string (null/undefined and the empty
string are falsy). -/
def jsTruthyStr : Option String → Bool
  | some s => s != ""
  | none => false

/-- JS truthiness of a possibly-absent JSON value. -/
def jsTruthyData : Option JValue → Bool
  | some v => v.truthy
  | none => false

/-- JS loose equality (==) of a possibly-absent JSON value against a
number literal, on the primitive shapes a protocol frame can carry;
string-to-number coercion is modelled by decimal-integer parsing, which
covers every numeral the embedded checks can meet. null and undefined are
loosely equal only to each other, hence never to a number. -/
def looseEqNum (v : Option JValue) (n : Int) : Bool :=
  match v with
  | some (.num m) => m == n
  | some (.str s) => s.toInt? == some n
  | some (.bool b) => (if b then (1 : Int) else 0) == n
  | _ => false

/-- JS loose equality (==) of a possibly-absent JSON value against a
string literal (same coverage note as looseEqNum). -/
def looseEqStr (v : Option JValue) (t : String) : Bool :=
  match v with
  | some (.str s) => s == t
  | some (.num m) => t.toInt? == some m
  | _ => false

/-- Reads a protocol field at its declared string type; the protocol
fields of every frame this development considers are strings or absent. -/
def getStrField (v : Option JValue) : Option String :=
  match v with
  | some (.str s) => some s
  | _ => none

/-- How JS renders a value inside a template literal (used by the
facade's failure message). -/
def jsDisplay : Option JValue → String
  | none => "undefined"
  | some .null => "null"
  | some (.str s) => s
  | some (.bool b) => if b then "true" else "false"
  | some (.num n) => toString n
  | some (.obj _) => "[object Object]"

/-! ## Protocol constants -/

def _PROTOCOL_VERSION : Int := 1
def _PROTOCOL_MAGIC : String := "ue_py"
def _TYPE_PING : String := "ping"
def _TYPE_PONG : String := "pong"
def _TYPE_OPEN_CONNECTION : String := "open_connection"
def _TYPE_CLOSE_CONNECTION : String := "close_connection"
def _TYPE_COMMAND : String := "command"
def _TYPE_COMMAND_RESULT : String := "command_result"

def _NODE_PING_SECONDS : Nat := 1000
def _NODE_TIMEOUT_SECONDS : Nat := 5000

def MODE_EXEC_FILE : String := "ExecuteFile"
def MODE_EXEC_STATEMENT : String := "ExecuteStatement"
def MODE_EVAL_STATEMENT : String := "EvaluateStatement"

/-! ## Message codec (_RemoteExecutionMessage) -/

/-- The message object. The TS fields are nullable strings plus a
nullable payload object; null/undefined are modelled as none. The
constructor's defaults (dest = null, data = null) are none. -/
structure _RemoteExecutionMessage where
  type_ : Option String
  source : Option String
  dest : Option String
  data : Option JValue
deriving Repr

/-- new _RemoteExecutionMessage(null, null): the blank message that
_handle_data and _receive_message feed to from_json_bytes. -/
def blankMessage : _RemoteExecutionMessage := ⟨none, none, none, none⟩

/-- passes_receive_filter: source != node_id && (!dest || dest == node_id).
A null source is != any string; a null, undefined or empty dest is falsy. -/
def _RemoteExecutionMessage.passes_receive_filter
    (m : _RemoteExecutionMessage) (node_id : String) : Bool :=
  m.source != some node_id && (!jsTruthyStr m.dest || m.dest == some node_id)

/-- to_json: builds the wire object. version/magic/type/source are always
emitted (JSON.stringify writes an explicit null for a null field, modelled
as JValue.null); dest and data are added only when truthy, so an absent
dest or payload is omitted entirely. The empty-type/empty-source guards in
the source only log, they do not change the output. -/
def _RemoteExecutionMessage.to_json (m : _RemoteExecutionMessage) : JValue :=
  let base : List (String × JValue) :=
    [("version", JValue.num _PROTOCOL_VERSION),
     ("magic", JValue.str _PROTOCOL_MAGIC),
     ("type", match m.type_ with | some t => JValue.str t | none => JValue.null),
     ("source", match m.source with | some s => JValue.str s | none => JValue.null)]
  let withDest :=
    match m.dest with
    | some d => if d != "" then base ++ [("dest", JValue.str d)] else base
    | none => base
  let withData :=
    match m.data with
    | some v => if v.truthy then withDest ++ [("data", v)] else withDest
    | none => withDest
  JValue.obj withData

/-- from_json: takes the outcome of JSON.parse (none = parse threw) and
the message being mutated; returns the boolean result together with the
updated message. Every throw inside the try block (parse failure, version
mismatch, magic mismatch) lands in the catch, which only logs — the
function then falls through to an unconditional return true, leaving the
message fields as they were. -/
def _RemoteExecutionMessage.from_json
    (m : _RemoteExecutionMessage) (parsed : Option JValue) :
    Bool × _RemoteExecutionMessage :=
  match parsed with
  | none => (true, m)
  | some j =>
    if !looseEqNum (j.getField "version") _PROTOCOL_VERSION then (true, m)
    else if !looseEqStr (j.getField "magic") _PROTOCOL_MAGIC then (true, m)
    else
      (true,
       { type_ := getStrField (j.getField "type"),
         source := getStrField (j.getField "source"),
         dest := getStrField (j.getField "dest"),
         data := j.getField "data" })

/-- decode: new _RemoteExecutionMessage(null, null) followed by
from_json_bytes, exactly as _handle_data and _receive_message do. -/
def decode (parsed : Option JValue) : Bool × _RemoteExecutionMessage :=
  blankMessage.from_json parsed

/-! ## Node registry (_RemoteExecutionNode / _RemoteExecutionBroadcastNodes)

Value-level model: node identity of the attribute objects is irrelevant to
update/timeout, so records carry their data by value here. The aliasing
behaviour of the remote_nodes getter is modelled separately on an explicit
heap below. -/

/-- Embeds _time_now(now): now ? now : new Date().getTime(). The wall-clock read
is the explicit wall parameter; JS truthiness makes both null (none) and
the number 0 fall through to the wall clock. -/
def _time_now (wall : Nat) (now : Option Nat) : Nat :=
  match now with
  | some t => if t != 0 then t else wall
  | none => wall

/-- A discovered remote node: its pong data and the timestamp resolved by
_time_now at construction. -/
structure _RemoteExecutionNode where
  data : JValue
  _last_pong : Nat
deriving Repr

/-- should_timeout(now): (_last_pong + _NODE_TIMEOUT_SECONDS) < _time_now(now).
The argument is re-resolved through _time_now inside the method. -/
def _RemoteExecutionNode.should_timeout
    (wall : Nat) (n : _RemoteExecutionNode) (now : Nat) : Bool :=
  decide ((n._last_pong + _NODE_TIMEOUT_SECONDS) < _time_now wall (some now))

/-- The registry's backing store: a JS object keyed by node id, modelled
as an insertion-ordered association list with unique keys. -/
def BroadcastNodes := List (String × _RemoteExecutionNode)

/-- update_remote_node: resolve the timestamp through _time_now, then
store a fresh _RemoteExecutionNode under node_id (replacing any previous
entry; the first-sighting log does not change state). -/
def update_remote_node (nodes : BroadcastNodes) (node_id : String)
    (node_data : JValue) (now : Option Nat) (wall : Nat) : BroadcastNodes :=
  setKey nodes node_id ⟨node_data, _time_now wall now⟩

/-- timeout_remote_nodes: resolve the timestamp once, then delete every
node whose should_timeout holds (for-in plus delete = filter). -/
def timeout_remote_nodes (nodes : BroadcastNodes) (now : Option Nat)
    (wall : Nat) : BroadcastNodes :=
  let _now := _time_now wall now
  nodes.filter (fun p => !(p.2.should_timeout wall _now))

/-! ## The remote_nodes getter, on an explicit heap

The getter's body is
  remote_node_data = new Object(node.data); remote_node_data[node_id_key] = ...
and per the ECMAScript Object constructor, new Object(x) with an object
argument returns x itself — no copy. Object identity is therefore the whole
content of claim C8, so this part is modelled with JSON objects living in a
heap addressed by Nat references. -/

/-- An object's own fields. -/
abbrev JObj := List (String × JValue)

/-- A heap of JSON objects; a reference is an index into objs. -/
structure Heap where
  objs : List JObj
deriving Repr

/-- Dereference (out-of-range never arises in the embedded runs). -/
def Heap.getObj (h : Heap) (r : Nat) : JObj := (h.objs.get? r).getD []

/-- Property write through a reference. -/
def Heap.setField (h : Heap) (r : Nat) (k : String) (v : JValue) : Heap :=
  ⟨h.objs.mapIdx (fun i o => if i = r then setKey o k v else o)⟩

/-- new Object(x) for an object argument x: the ECMAScript Object
constructor returns the argument itself, not a copy. -/
def newObject (h : Heap) (r : Nat) : Nat × Heap := (r, h)

/-- A registry record in the heap model: the node's data is a reference. -/
structure HNode where
  dataRef : Nat
  _last_pong : Nat
deriving Repr

/-- The remote_nodes getter: for each stored node, remote_node_data :=
new Object(node.data), then remote_node_data gains a node_id property,
then it is pushed onto the returned list. Returns the list of record
references and the heap after the getter ran. -/
def remote_nodes (h : Heap) (nodes : List (String × HNode)) :
    List Nat × Heap :=
  nodes.foldl
    (fun acc p =>
      let rn := newObject acc.2 p.2.dataRef
      let h2 := rn.2.setField rn.1 "node_id" (JValue.str p.1)
      (acc.1 ++ [rn.1], h2))
    ([], h)

/-! ## Command connection (_RemoteExecutionCommandConnection) -/

/-- The command connection's state. Sockets are modelled by presence
flags: _command_listen_socket is the listening server (net.createServer),
_command_channel_socket the accepted connection, which only the server's
connection event ever sets. The messages written out are recorded so the
theorems can speak about what was sent. -/
structure _RemoteExecutionCommandConnection where
  _node_id : String
  _remote_node_id : String
  _command_listen_socket : Bool
  _command_channel_socket : Bool
  _result : Option _RemoteExecutionMessage
  sent_broadcasts : List _RemoteExecutionMessage
  sent_tcp : List _RemoteExecutionMessage
deriving Repr

/-- The constructor: every socket null, no result, nothing sent. -/
def mkCommandConnection (node_id remote_node_id : String) :
    _RemoteExecutionCommandConnection :=
  ⟨node_id, remote_node_id, false, false, none, [], []⟩

/-- The open_connection message broadcast_open_connection sends (payload
carries the configured command endpoint 127.0.0.1:6776). -/
def open_connection_message (c : _RemoteExecutionCommandConnection) :
    _RemoteExecutionMessage :=
  ⟨some _TYPE_OPEN_CONNECTION, some c._node_id, some c._remote_node_id,
   some (JValue.obj
     [("command_ip", JValue.str "127.0.0.1"),
      ("command_port", JValue.num 6776)])⟩

/-- The loop body of _try_accept, counting down the remaining attempts:
each iteration broadcasts open_connection, then returns success as soon
as this._command_listen_socket is non-null — the literal check in the
source tests the listening socket, not an accepted connection. Exhausting
the budget throws. -/
def try_accept_go : Nat → _RemoteExecutionCommandConnection →
    Except String _RemoteExecutionCommandConnection
  | 0, _ => Except.error "Remote party failed to attempt the command socket connection!"
  | Nat.succ k, c =>
    let c2 := { c with sent_broadcasts := c.sent_broadcasts ++ [open_connection_message c] }
    if c2._command_listen_socket then Except.ok c2 else try_accept_go k c2

/-- Embeds _try_accept: six attempts of the loop body. -/
def _try_accept (c : _RemoteExecutionCommandConnection) :
    Except String _RemoteExecutionCommandConnection :=
  try_accept_go 6 c

/-- Embeds _init_command_listen_socket: creates the server and starts listening,
so the _command_listen_socket field becomes non-null; the accepted-socket
field is written only by the later connection event (modelled by
on_connection below). -/
def _init_command_listen_socket (c : _RemoteExecutionCommandConnection) :
    _RemoteExecutionCommandConnection :=
  { c with _command_listen_socket := true }

/-- The server's connection event: stores the accepted socket and installs
the data handler (on_data below). -/
def on_connection (c : _RemoteExecutionCommandConnection) :
    _RemoteExecutionCommandConnection :=
  { c with _command_channel_socket := true }

/-- open(): allocate a fresh _RemoteExecutionBroadcastNodes (no claim
reads it), initialise the listen socket, then _try_accept. Named
open_conn because open is a Lean keyword. -/
def open_conn (c : _RemoteExecutionCommandConnection) :
    Except String _RemoteExecutionCommandConnection :=
  _try_accept (_init_command_listen_socket c)

/-- Embeds _receive_message: builds a blank message, runs from_json_bytes (which
always returns true, see from_json), then accepts iff the receive filter
and the expected-type check pass; otherwise throws. The outer if-data
guard is on the Buffer object, which is always truthy. The input is the
parse of the buffer, as in decode. -/
def _receive_message (node_id : String) (parsed : Option JValue)
    (expected_type : String) : Except String _RemoteExecutionMessage :=
  let r := decode parsed
  if r.1 && r.2.passes_receive_filter node_id && r.2.type_ == some expected_type then
    Except.ok r.2
  else
    Except.error "Remote party failed to send a valid response!"

/-- The data handler installed on the accepted socket: it calls
_receive_message(data, command_result) and discards the returned message;
no branch writes this._result, and a throw escapes the socket callback —
either way the connection state is unchanged. -/
def on_data (c : _RemoteExecutionCommandConnection) (parsed : Option JValue) :
    _RemoteExecutionCommandConnection :=
  match _receive_message c._node_id parsed _TYPE_COMMAND_RESULT with
  | Except.ok _ => c
  | Except.error _ => c

/-- The command message run_command sends. -/
def command_message (c : _RemoteExecutionCommandConnection)
    (command : String) (unattended : Bool) (exec_mode : String) :
    _RemoteExecutionMessage :=
  ⟨some _TYPE_COMMAND, some c._node_id, some c._remote_node_id,
   some (JValue.obj
     [("command", JValue.str command),
      ("unattended", JValue.bool unattended),
      ("exec_mode", JValue.str exec_mode)])⟩

/-- run_command on the connection: sends the command message, then enters
while(true) testing this._result with no timeout (the source carries a
TODO admitting none). The loop exits iff _result is truthy, returning its
data and clearing _result; a run that never sees _result set does not
terminate, modelled as none. -/
def _RemoteExecutionCommandConnection.run_command
    (c : _RemoteExecutionCommandConnection) (command : String)
    (unattended : Bool) (exec_mode : String) :
    Option (Option JValue × _RemoteExecutionCommandConnection) :=
  let c2 := { c with sent_tcp := c.sent_tcp ++ [command_message c command unattended exec_mode] }
  match c2._result with
  | some r => some (r.data, { c2 with _result := none })
  | none => none

/-! ## RemoteExecution facade -/

/-- RemoteExecution.run_command's handling of the payload returned by the
command connection: with raise_on_failure and a falsy success field it
throws the failure message carrying the remote result text, otherwise it
returns the payload unchanged. -/
def RemoteExecution.run_command_result (data : JValue)
    (raise_on_failure : Bool) : Except String JValue :=
  if raise_on_failure && !jsTruthyData (data.getField "success") then
    Except.error ("Remote Python Command failed! " ++ jsDisplay (data.getField "result") ++ ".")
  else
    Except.ok data

/-! ## Concrete protocol inputs used by the theorems -/

/-- A frame whose version field is 2 instead of the protocol constant 1. -/
def bad_version_frame : JValue :=
  JValue.obj [("version", JValue.num 2), ("magic", JValue.str "ue_py"),
              ("type", JValue.str "pong"), ("source", JValue.str "n1")]

/-- A frame whose magic field is not the protocol magic. -/
def bad_magic_frame : JValue :=
  JValue.obj [("version", JValue.num 1), ("magic", JValue.str "not_ue_py"),
              ("type", JValue.str "pong"), ("source", JValue.str "n1")]

/-- A freshly constructed command connection from local node to remote
node n1, before open() runs. -/
def fresh_conn : _RemoteExecutionCommandConnection :=
  mkCommandConnection "local-node" "n1"

/-- The command connection after open() initialised the listen socket,
still with no accepted connection (the remote party never dialled back). -/
def conn_no_accept : _RemoteExecutionCommandConnection :=
  _init_command_listen_socket fresh_conn

/-- Scenario D's command_result frame: success true, result "1",
addressed from n1 to the local node. -/
def scenarioD_frame : JValue :=
  JValue.obj [("version", JValue.num 1), ("magic", JValue.str "ue_py"),
    ("type", JValue.str "command_result"), ("source", JValue.str "n1"),
    ("dest", JValue.str "local-node"),
    ("data", JValue.obj [("success", JValue.bool true), ("result", JValue.str "1")])]

/-- Scenario D's well-formed message, for the round-trip witness. -/
def msgD : _RemoteExecutionMessage :=
  ⟨some _TYPE_COMMAND_RESULT, some "n1", some "local-node",
   some (JValue.obj [("success", JValue.bool true), ("result", JValue.str "1")])⟩

/-- A message carrying a payload, for the wire-key counterexample. -/
def msg5 : _RemoteExecutionMessage :=
  ⟨some _TYPE_COMMAND, some "sender", none,
   some (JValue.obj [("command", JValue.str "print(1)")])⟩

/-- A message whose dest is the empty string, for the filter
counterexample. -/
def msg6 : _RemoteExecutionMessage :=
  ⟨some _TYPE_PING, some "a", some "", none⟩

/-- A heap holding one node-data object at reference 0. -/
def c8_heap : Heap := ⟨[[("machine", JValue.str "WS1")]]⟩

/-- A registry whose record n1 points at heap object 0. -/
def c8_reg : List (String × HNode) := [("n1", ⟨0, 100⟩)]

/-- A command_result payload reporting failure, for the facade theorem. -/
def fail_payload : JValue :=
  JValue.obj [("success", JValue.bool false), ("result", JValue.str "boom")]

/-! ## Helper lemmas -/

/-- A positive cached timestamp is returned unchanged by _time_now. -/
theorem time_now_of_pos (wall t : Nat) (h : 0 < t) :
    _time_now wall (some t) = t := by
  unfold _time_now
  have hb : (t != 0) = true := by simp [bne]; omega
  simp [hb]

/-! ## Claim theorems -/

/-- Claim C1 (code bug). The accept-retry loop's literal check tests the
listening socket, which _init_command_listen_socket has just made
non-null, so open() reports success on the first attempt after a single
open_connection broadcast even though no inbound TCP connection was ever
accepted (_command_channel_socket is still null); it does not fail with a
connection timeout and never reaches the throwing branch. -/
theorem c1_open_succeeds_without_any_accepted_connection :
    (open_conn fresh_conn).map
      (fun c => (c._command_channel_socket, c.sent_broadcasts.length)) =
      Except.ok (false, 1) := rfl

/-- Claim C2 (code bug). from_json catches every failure (unparseable
JSON, version mismatch, magic mismatch), only logs it, and then returns
true unconditionally, leaving the message fields untouched — so decode
reports success instead of an InvalidJSON / VersionMismatch /
MagicMismatch error on each of the three failure inputs. -/
theorem c2_from_json_reports_success_on_invalid_input :
    decode none = (true, blankMessage) ∧
    decode (some bad_version_frame) = (true, blankMessage) ∧
    decode (some bad_magic_frame) = (true, blankMessage) :=
  ⟨rfl, rfl, rfl⟩

/-- Claim C3 (code bug). The accepted socket's data handler discards the
message _receive_message returns and no code path ever writes _result,
so the connection state is unchanged by any inbound frame — including
Scenario D's valid command_result — and run_command's unbounded busy-wait
on _result (the source carries a TODO admitting the missing timeout)
never terminates: its loop exit evaluates to none rather than returning
the result payload or a CommandTimeout failure. -/
theorem c3_result_never_stored_and_run_command_never_returns :
    (∀ (c : _RemoteExecutionCommandConnection) (parsed : Option JValue),
      on_data c parsed = c) ∧
    on_data (on_connection conn_no_accept) (some scenarioD_frame) =
      on_connection conn_no_accept ∧
    (on_connection conn_no_accept).run_command "print(1)" true MODE_EVAL_STATEMENT
      = none := by
  refine ⟨?_, rfl, rfl⟩
  intro c parsed
  unfold on_data
  cases _receive_message c._node_id parsed _TYPE_COMMAND_RESULT <;> rfl

/-- Claim C8 (code bug). new Object(node.data) returns the stored object
itself, so the remote_nodes getter hands out references into the live
registry: the returned record for n1 is the very heap object the registry
stores (reference 0), the getter itself injects a node_id property into
that stored object, and a caller writing a key through the returned
reference changes the registry's stored node data. -/
theorem c8_snapshot_aliases_live_registry_data :
    (remote_nodes c8_heap c8_reg).1 = [0] ∧
    (lookupKey c8_reg "n1").map (fun nd => nd.dataRef) = some 0 ∧
    lookupKey (c8_heap.getObj 0) "node_id" = none ∧
    lookupKey ((remote_nodes c8_heap c8_reg).2.getObj 0) "node_id"
      = some (JValue.str "n1") ∧
    lookupKey (((remote_nodes c8_heap c8_reg).2.setField 0 "x"
        (JValue.str "mutated")).getObj 0) "x"
      = some (JValue.str "mutated") :=
  ⟨rfl, rfl, rfl, rfl, rfl⟩

/-- Claim C10 (confirmed). Passing timestamp 0 to update_remote_node or
timeout_remote_nodes is indistinguishable from passing null: JS
truthiness makes _time_now fall through to the wall clock on 0, so the
record stored for a t0-equals-0 upsert carries the wall-clock time, and
the registry clock cannot be pinned to 0. -/
theorem c10_zero_timestamp_uses_wall_clock :
    ∀ (nodes : BroadcastNodes) (node_id : String) (d : JValue) (wall : Nat),
      update_remote_node nodes node_id d (some 0) wall
        = update_remote_node nodes node_id d none wall ∧
      timeout_remote_nodes nodes (some 0) wall
        = timeout_remote_nodes nodes none wall ∧
      _time_now wall (some 0) = wall ∧
      update_remote_node [] node_id d (some 0) wall = [(node_id, ⟨d, wall⟩)] :=
  fun _ _ _ _ => ⟨rfl, rfl, rfl, rfl⟩

/-- Claim C4 (confirmed). Encode/decode round-trip: a well-formed message
(type and source present, any dest that is present is a non-empty node
id, any payload that is present is truthy — every protocol payload is an
object, and objects are always truthy) decodes from its own encoding to
exactly itself, absent optional fields staying absent. -/
theorem c4_encode_decode_roundtrip (t s : String) (md : Option String)
    (mp : Option JValue)
    (hd : ∀ d, md = some d → d ≠ "")
    (hp : ∀ v, mp = some v → v.truthy = true) :
    decode (some (_RemoteExecutionMessage.to_json ⟨some t, some s, md, mp⟩))
      = (true, ⟨some t, some s, md, mp⟩) := by
  rcases md with _ | d <;> rcases mp with _ | v
  · rfl
  · have hv : v.truthy = true := hp v rfl
    unfold _RemoteExecutionMessage.to_json
    simp only [hv, if_true]
    rfl
  · have hdd : (d != "") = true := by
      have := hd d rfl
      simp [bne, this]
    unfold _RemoteExecutionMessage.to_json
    simp only [hdd, if_true]
    rfl
  · have hv : v.truthy = true := hp v rfl
    have hdd : (d != "") = true := by
      have := hd d rfl
      simp [bne, this]
    unfold _RemoteExecutionMessage.to_json
    simp only [hv, hdd, if_true]
    rfl

/-- Witness for C4: the round-trip theorem applied to Scenario D's
concrete command_result message. -/
theorem c4_encode_decode_roundtrip_witness :
    msgD.dest = some "local-node" ∧
    decode (some msgD.to_json) = (true, msgD) :=
  ⟨rfl,
   c4_encode_decode_roundtrip "command_result" "n1" (some "local-node")
     (some (JValue.obj [("success", JValue.bool true), ("result", JValue.str "1")]))
     (fun d hd => by injection hd with h; subst h; decide)
     (fun v hv => by injection hv with h; subst h; rfl)⟩

/-- Counterexample for C5: a message carrying a payload encodes with no
JSON key named payload — the payload travels under the key data. -/
theorem c5_wire_key_counterexample :
    msg5.data = some (JValue.obj [("command", JValue.str "print(1)")]) ∧
    msg5.to_json.getField "payload" = none ∧
    msg5.to_json.getField "data"
      = some (JValue.obj [("command", JValue.str "print(1)")]) :=
  ⟨rfl, rfl, rfl⟩

/-- Claim C5 as amended: the wire envelope carries the payload under the
JSON key data (not payload), alongside version, magic, type, source and
an optional dest; decode reads the payload back from the data key; dest
and data are omitted entirely, not set to null, when absent. Every part
holds for an arbitrary message: the payload conjuncts put no condition
on dest and the omission conjuncts none on the other optional field. -/
theorem c5_envelope_uses_data_key (m : _RemoteExecutionMessage) :
    m.to_json.getField "payload" = none ∧
    m.to_json.getField "version" = some (JValue.num 1) ∧
    m.to_json.getField "magic" = some (JValue.str "ue_py") ∧
    (jsTruthyData m.data = true →
      m.to_json.getField "data" = m.data ∧
      (decode (some m.to_json)).2.data = m.data) ∧
    (m.data = none → m.to_json.getField "data" = none) ∧
    (m.dest = none → m.to_json.getField "dest" = none) ∧
    (∀ d, m.dest = some d → d ≠ "" →
      m.to_json.getField "dest" = some (JValue.str d)) := by
  obtain ⟨mt, ms, md, mp⟩ := m
  refine ⟨?_, ?_, ?_, ?_, ?_, ?_, ?_⟩
  · unfold _RemoteExecutionMessage.to_json
    rcases md with _ | d <;> rcases mp with _ | v <;>
      (repeat' split) <;> rfl
  · unfold _RemoteExecutionMessage.to_json
    rcases md with _ | d <;> rcases mp with _ | v <;>
      (repeat' split) <;> rfl
  · unfold _RemoteExecutionMessage.to_json
    rcases md with _ | d <;> rcases mp with _ | v <;>
      (repeat' split) <;> rfl
  · intro h
    rcases mp with _ | v
    · simp [jsTruthyData] at h
    · have hv : v.truthy = true := by simpa [jsTruthyData] using h
      constructor
      · unfold _RemoteExecutionMessage.to_json
        simp only [hv, if_true]
        rcases md with _ | d <;> (repeat' split) <;> rfl
      · unfold _RemoteExecutionMessage.to_json
        simp only [hv, if_true]
        rcases md with _ | d <;> (repeat' split) <;> rfl
  · intro h
    rcases mp with _ | v
    · unfold _RemoteExecutionMessage.to_json
      rcases md with _ | d <;> (repeat' split) <;>
        first | rfl | simp_all
    · exact absurd h (by simp)
  · intro h
    rcases md with _ | d
    · unfold _RemoteExecutionMessage.to_json
      rcases mp with _ | v <;> (repeat' split) <;> rfl
    · exact absurd h (by simp)
  · intro d hd hne
    rcases md with _ | d'
    · exact absurd hd (by simp)
    · injection hd with h
      subst h
      have hdd : (d' != "") = true := by simp [bne, hne]
      unfold _RemoteExecutionMessage.to_json
      simp only [hdd, if_true]
      rcases mp with _ | v <;> (repeat' split) <;> rfl

/-- Counterexample for C6: a message whose dest is the empty string — a
dest that is neither absent nor equal to the local id b — is nonetheless
accepted by passes_receive_filter, because an empty string is falsy in
the !dest check. -/
theorem c6_empty_dest_counterexample :
    msg6.passes_receive_filter "b" = true ∧
    msg6.dest ≠ none ∧
    msg6.dest ≠ some "b" ∧
    msg6.source ≠ some "b" := by
  refine ⟨rfl, ?_, ?_, ?_⟩ <;> decide

/-- Claim C6 as amended: passes_receive_filter returns true iff the
source differs from the local id and the dest is absent, empty, or equal
to the local id (JS truthiness lets an empty-string dest pass as if it
were absent). -/
theorem c6_passes_receive_filter_iff (m : _RemoteExecutionMessage)
    (node_id : String) :
    m.passes_receive_filter node_id = true ↔
      (m.source ≠ some node_id ∧
        (m.dest = none ∨ m.dest = some "" ∨ m.dest = some node_id)) := by
  obtain ⟨mt, ms, md, mp⟩ := m
  unfold _RemoteExecutionMessage.passes_receive_filter jsTruthyStr
  rcases md with _ | d
  · simp
  · simp only [Bool.and_eq_true, Bool.or_eq_true, Bool.not_eq_true',
      bne_iff_ne, beq_iff_eq, bne_eq_false_iff_eq, ne_eq, Option.some.injEq,
      reduceCtorEq, false_or]
    try tauto

/-- Counterexample for C7: with t0 = 0 the upsert does not store
timestamp 0 — _time_now swaps in the wall clock (here 1000000) — so the
subsequent sweep at t0 + timeout + 1 = 5001 keeps the record instead of
removing it as the claim requires for every t0. -/
theorem c7_zero_timestamp_counterexample :
    timeout_remote_nodes
        (update_remote_node [] "n1" (JValue.obj []) (some 0) 1000000)
        (some (0 + _NODE_TIMEOUT_SECONDS + 1)) 1000000
      = update_remote_node [] "n1" (JValue.obj []) (some 0) 1000000 ∧
    (update_remote_node [] "n1" (JValue.obj []) (some 0) 1000000).length = 1 :=
  ⟨rfl, rfl⟩

/-- Claim C7 as amended: for every positive timestamp t0 (the code
treats 0 like a missing timestamp, see _time_now), after
update_remote_node the registry holds exactly one record for the node; a
sweep at t0 + timeout + 1 removes it, a sweep at t0 + timeout - 1 keeps
it, and in general a sweep removes exactly the records whose last pong
plus the timeout is below the sweep time. -/
theorem c7_registry_upsert_sweep (n : String) (d : JValue)
    (t0 wallU wallS wallK : Nat) (h : 0 < t0) :
    (update_remote_node [] n d (some t0) wallU).countP (fun p => p.1 == n) = 1 ∧
    timeout_remote_nodes (update_remote_node [] n d (some t0) wallU)
        (some (t0 + _NODE_TIMEOUT_SECONDS + 1)) wallS = [] ∧
    timeout_remote_nodes (update_remote_node [] n d (some t0) wallU)
        (some (t0 + _NODE_TIMEOUT_SECONDS - 1)) wallK
      = update_remote_node [] n d (some t0) wallU ∧
    (∀ (nodes : BroadcastNodes) (now wall : Nat), 0 < now →
      timeout_remote_nodes nodes (some now) wall =
        nodes.filter
          (fun p => !decide (p.2._last_pong + _NODE_TIMEOUT_SECONDS < now))) := by
  have hst : update_remote_node [] n d (some t0) wallU
      = [(n, ⟨d, t0⟩)] := by
    unfold update_remote_node setKey
    simp [time_now_of_pos _ _ h]
  have hgen : ∀ (nodes : BroadcastNodes) (now wall : Nat), 0 < now →
      timeout_remote_nodes nodes (some now) wall =
        nodes.filter
          (fun p => !decide (p.2._last_pong + _NODE_TIMEOUT_SECONDS < now)) := by
    intro nodes now wall hnow
    unfold timeout_remote_nodes _RemoteExecutionNode.should_timeout
    simp only [time_now_of_pos _ _ hnow]
  refine ⟨?_, ?_, ?_, hgen⟩
  · rw [hst]
    simp [List.countP_cons]
  · rw [hst, hgen _ _ _ (by omega)]
    simp only [List.filter, decide_eq_true_eq]
    have : t0 + _NODE_TIMEOUT_SECONDS < t0 + _NODE_TIMEOUT_SECONDS + 1 := by omega
    simp [this]
  · rw [hst, hgen _ _ _ (by
      have := h
      unfold _NODE_TIMEOUT_SECONDS
      omega)]
    simp only [List.filter, decide_eq_true_eq]
    have : ¬ (t0 + _NODE_TIMEOUT_SECONDS < t0 + _NODE_TIMEOUT_SECONDS - 1) := by
      omega
    simp [this]

/-- Witness for C7: the amended registry theorem applied at node n1,
timestamp 5, with distinct wall-clock values at each step. -/
theorem c7_registry_upsert_sweep_witness :
    0 < 5 ∧
    ((update_remote_node [] "n1" (JValue.obj []) (some 5) 777).countP
        (fun p => p.1 == "n1") = 1 ∧
      timeout_remote_nodes (update_remote_node [] "n1" (JValue.obj []) (some 5) 777)
          (some (5 + _NODE_TIMEOUT_SECONDS + 1)) 888 = [] ∧
      timeout_remote_nodes (update_remote_node [] "n1" (JValue.obj []) (some 5) 777)
          (some (5 + _NODE_TIMEOUT_SECONDS - 1)) 999
        = update_remote_node [] "n1" (JValue.obj []) (some 5) 777 ∧
      (∀ (nodes : BroadcastNodes) (now wall : Nat), 0 < now →
        timeout_remote_nodes nodes (some now) wall =
          nodes.filter
            (fun p => !decide (p.2._last_pong + _NODE_TIMEOUT_SECONDS < now)))) :=
  ⟨by decide, c7_registry_upsert_sweep "n1" (JValue.obj []) 5 777 888 999 (by decide)⟩

/-- Claim C9 (confirmed). RemoteExecution.run_command with
raise_on_failure set fails with the CommandFailed message carrying the
remote-reported result text when the command_result payload reports
success false; when success is true, or raise_on_failure is not set, the
raw result payload is returned unchanged. -/
theorem c9_raise_on_failure_behaviour (data : JValue)
    (raise_on_failure : Bool) :
    (raise_on_failure = true →
      data.getField "success" = some (JValue.bool false) →
      RemoteExecution.run_command_result data raise_on_failure =
        Except.error
          ("Remote Python Command failed! "
            ++ jsDisplay (data.getField "result") ++ ".")) ∧
    (data.getField "success" = some (JValue.bool true) →
      RemoteExecution.run_command_result data raise_on_failure
        = Except.ok data) ∧
    (raise_on_failure = false →
      RemoteExecution.run_command_result data raise_on_failure
        = Except.ok data) := by
  unfold RemoteExecution.run_command_result
  refine ⟨?_, ?_, ?_⟩
  · intro hr hs
    subst hr
    rw [hs]
    rfl
  · intro hs
    rw [hs]
    cases raise_on_failure <;> rfl
  · intro hr
    subst hr
    rfl
